import Mathlib

/-!
Shallow embedding of the catalog-access core of the shopify-product-generator
repository (`shopify.service.ts`, `store.dto.ts`).  The GraphQL transport is
abstracted as response oracles passed to each operation; machine strings are
`String`, JS numbers appearing in identifiers and counters are `Nat`/`Int`,
and decimal price amounts are normalized by an abstract `parseFloat`
parameter (their values are never inspected by any property below).
-/

namespace ShopifyGen

/-! JS string-builtin models -/

/-- Character-list test that `pat` is a leading segment of `s` (models
`String.prototype.startsWith` over code points). -/
def isPrefixList : List Char → List Char → Bool
  | [], _ => true
  | _ :: _, [] => false
  | p :: ps, c :: cs => p == c && isPrefixList ps cs

/-- Models `String.prototype.replace(pat, rep)` with a plain-string pattern:
only the first occurrence of `pat` is replaced. -/
def replaceFirstList (pat rep : List Char) : List Char → List Char
  | [] => if pat.isEmpty then rep else []
  | c :: cs =>
    if isPrefixList pat (c :: cs) then rep ++ (c :: cs).drop pat.length
    else c :: replaceFirstList pat rep cs

/-- Models `id.startsWith(root)`. -/
def jsStartsWith (s root : String) : Bool := isPrefixList root.data s.data

/-- Strips a leading segment, or fails. -/
def stripStart (pat s : List Char) : Option (List Char) :=
  if isPrefixList pat s then some (s.drop pat.length) else none

/-- Everything after the first slash, provided the tail is nonempty. -/
def afterFirstSlash : List Char → Option (List Char)
  | [] => none
  | c :: cs => if c == '/' then (if cs.isEmpty then none else some cs) else afterFirstSlash cs

/-- Models the JS idiom `n || d` over numbers: `0` is falsy. -/
def jsOrNat (n d : Nat) : Nat := if n = 0 then d else n

/-- Models `cursor || null`: an empty-string cursor is falsy in JS. -/
def jsOrCursor (c : Option String) : Option String :=
  match c with
  | some s => if s = "" then none else some s
  | none => none

/-! Identifier codec (`simplifyProductGid`, `simplifyGid`, `ensureProductGid`) -/

def productGidRoot : String := "gid://shopify/Product/"

def variantGidRoot : String := "gid://shopify/ProductVariant/"

def gidNamespaceRoot : String := "gid://shopify/"

/-- Models `id.replace('gid://shopify/Product/', '')`. -/
def simplifyProductGid (id : String) : String :=
  String.mk (replaceFirstList productGidRoot.data [] id.data)

/-- Models `id.replace('gid://shopify/ProductVariant/', '')`. -/
def simplifyProductVariantGid (id : String) : String :=
  String.mk (replaceFirstList variantGidRoot.data [] id.data)

/-- Models `id.replace(/^gid:\/\/shopify\/[^/]+\/(.+)$/, '$1')`: when the whole
string matches, the captured tail replaces it, otherwise the input is
returned unchanged. -/
def simplifyGid (id : String) : String :=
  match stripStart gidNamespaceRoot.data id.data with
  | none => id
  | some rest =>
    match rest with
    | [] => id
    | c :: _ =>
      if c == '/' then id
      else
        match afterFirstSlash rest with
        | some tail => String.mk tail
        | none => id

/-- Models the regex test `/^\d+$/` (in JS, `$` without the `m` flag matches
only at the very end, so this is exactly nonempty-all-digits). -/
def isNumeric (s : String) : Bool := !s.data.isEmpty && s.data.all (·.isDigit)

/-- Embedding of `ShopifyService.ensureProductGid`: pass a full product gid
through, wrap a bare numeric id, reject anything else. -/
def ensureProductGid (id : String) : Except String String :=
  if jsStartsWith id productGidRoot then .ok id
  else if isNumeric id then .ok (productGidRoot ++ id)
  else .error ("Unsupported Shopify product identifier: " ++ id)

/-! GraphQL transport outcome and backend record shapes -/

/-- Outcome of one `graphqlRequest`: either the transport threw, or the backend
replied with optional `data` and optional top-level `errors` (modelled by their
aggregate message). -/
inductive ReqResult (α : Type) where
  | thrown (msg : String)
  | reply (data : Option α) (errors : Option String)

def isThrown {α : Type} : ReqResult α → Bool
  | .thrown _ => true
  | .reply _ _ => false

structure GQLImage where
  url : String
  altText : Option String
deriving Repr, DecidableEq

structure GQLPreview where
  image : Option GQLImage
deriving Repr, DecidableEq

structure GQLMediaImage where
  id : String
  image : Option GQLImage
  preview : Option GQLPreview
deriving Repr, DecidableEq

/-- A media node is an image or some other kind (video, 3d model, ...) that
only carries a preview; the `__typename` test in the source is the
constructor test here. -/
inductive GQLMediaNode where
  | mediaImage (m : GQLMediaImage)
  | otherMedia (mediaContentType : String) (id : String) (preview : Option GQLPreview)
deriving Repr, DecidableEq

structure MediaEdge where
  node : GQLMediaNode
deriving Repr, DecidableEq

structure SelectedOption where
  name : String
  value : String
deriving Repr, DecidableEq

structure GQLProductVariantNode where
  id : String
  title : String
  availableForSale : Bool
  inventoryQuantity : Option Int
  price : String
  sku : Option String
  selectedOptions : List SelectedOption
deriving Repr, DecidableEq

structure VariantEdge where
  node : GQLProductVariantNode
deriving Repr, DecidableEq

structure VariantsPageInfo where
  hasNextPage : Bool
  endCursor : Option String
deriving Repr, DecidableEq

structure VariantsConnection where
  edges : List VariantEdge
  pageInfo : VariantsPageInfo
deriving Repr, DecidableEq

structure GQLMoney where
  amount : String
  currencyCode : String
deriving Repr, DecidableEq

structure GQLPriceRange where
  minVariantPrice : GQLMoney
  maxVariantPrice : GQLMoney
deriving Repr, DecidableEq

structure GQLProductNode where
  id : String
  title : String
  description : Option String
  handle : Option String
  productType : Option String
  vendor : Option String
  tags : List String
  updatedAt : String
  priceRangeV2 : GQLPriceRange
  featuredMedia : Option GQLMediaNode
  media : List MediaEdge
  variants : VariantsConnection
deriving Repr, DecidableEq

/-! Record normalizer (`extractPrimaryImage`, `mapUnifiedProduct`) -/

structure PrimaryImage where
  url : String
  alt : Option String
deriving Repr, DecidableEq

structure UnifiedPriceRange where
  min : Float
  max : Float
  currency : String
deriving Repr

structure UnifiedVariant where
  id : String
  title : String
  price : Float
  available : Bool
  inventory_quantity : Option Int
  options : List SelectedOption
deriving Repr

structure SourceMetadata where
  source_id : String
  sync_status : String
deriving Repr, DecidableEq

structure UnifiedProduct where
  id : String
  title : String
  description : Option String
  source : String
  price_range : UnifiedPriceRange
  images : List PrimaryImage
  variants : List UnifiedVariant
  handle : Option String
  product_type : Option String
  vendor : Option String
  tags : List String
  source_metadata : SourceMetadata
deriving Repr

/-- The url of a media image: its direct image url, else its preview-image
url (`image?.url ?? preview?.image?.url`). -/
def mediaImageUrl (m : GQLMediaImage) : Option String :=
  match m.image with
  | some img => some img.url
  | none => ((m.preview.bind (·.image)).map (·.url))

/-- The alt text of a media image (`image?.altText ?? preview?.image?.altText`):
note that a present image with null alt still falls through to the preview. -/
def mediaImageAlt (m : GQLMediaImage) : Option String :=
  match m.image.bind (·.altText) with
  | some a => some a
  | none => ((m.preview.bind (·.image)).bind (·.altText))

/-- The per-edge body of the fallback loop in `extractPrimaryImage`: an image
node with a url wins, otherwise any node's preview image is taken. -/
def extractFromEdges : List MediaEdge → Option PrimaryImage
  | [] => none
  | e :: rest =>
    match e.node with
    | .mediaImage m =>
      match mediaImageUrl m with
      | some url => some ⟨url, mediaImageAlt m⟩
      | none =>
        match m.preview.bind (·.image) with
        | some img => some ⟨img.url, img.altText⟩
        | none => extractFromEdges rest
    | .otherMedia _ _ preview =>
      match preview.bind (·.image) with
      | some img => some ⟨img.url, img.altText⟩
      | none => extractFromEdges rest

/-- Embedding of `ShopifyService.extractPrimaryImage`. -/
def extractPrimaryImage (p : GQLProductNode) : Option PrimaryImage :=
  match p.featuredMedia with
  | some (.mediaImage m) =>
    (match mediaImageUrl m with
     | some url => some ⟨url, mediaImageAlt m⟩
     | none => extractFromEdges p.media)
  | _ => extractFromEdges p.media

/-- Selected options of a variant plus a synthesized SKU option when a SKU is
present (`generateOptions` inside `mapUnifiedProduct`). -/
def generateOptions (node : GQLProductVariantNode) : List SelectedOption :=
  let options := node.selectedOptions.map (fun o => ⟨o.name, o.value⟩)
  match node.sku with
  | some sku => if sku = "" then options else options ++ [⟨"SKU", sku⟩]
  | none => options

/-- Embedding of `ShopifyService.mapUnifiedProduct`. -/
def mapUnifiedProduct (parseFloat : String → Float) (p : GQLProductNode) : UnifiedProduct :=
  let minAmount := parseFloat p.priceRangeV2.minVariantPrice.amount
  let maxAmount := parseFloat p.priceRangeV2.maxVariantPrice.amount
  let currency := p.priceRangeV2.minVariantPrice.currencyCode
  let primary := extractPrimaryImage p
  let images := match primary with | some i => [i] | none => []
  { id := simplifyProductGid p.id
    title := p.title
    description := p.description
    source := "shopify"
    price_range := ⟨minAmount, maxAmount, currency⟩
    images := images
    variants := p.variants.edges.map (fun e =>
      { id := simplifyProductVariantGid e.node.id
        title := e.node.title
        price := parseFloat e.node.price
        available := e.node.availableForSale
        inventory_quantity := e.node.inventoryQuantity
        options := generateOptions e.node })
    handle := p.handle
    product_type := p.productType
    vendor := p.vendor
    tags := p.tags
    source_metadata := ⟨simplifyProductGid p.id, "synced"⟩ }

/-! Query builder (`buildShopifyQuery`, `kv`, escaping) -/

structure SearchFilters where
  category : Option String
  price_min : Option Int
  price_max : Option Int
  available_only : Bool
  vendor : Option String
deriving Repr, DecidableEq

structure SortEntry where
  sortBy : String
  dir : String
deriving Repr, DecidableEq

structure ProductSearchParams where
  query : Option String
  page : Nat
  limit : Nat
  sort : List SortEntry
  filters : Option SearchFilters
deriving Repr, DecidableEq

/-- Models `value.replace(/'/g, "\\'")`: every single quote gains a backslash. -/
def escapeSingleQuotes (v : String) : String :=
  String.mk (v.data.foldr (fun c acc => if c == '\x27' then '\\' :: '\x27' :: acc else c :: acc) [])

/-- Models `q.replace(/"/g, '\\"')`: every double quote gains a backslash. -/
def escapeDefault (q : String) : String :=
  String.mk (q.data.foldr (fun c acc => if c == '"' then '\\' :: '"' :: acc else c :: acc) [])

/-- Embedding of `ShopifyService.kv`: a `key:'value'` token with single-quote
escaping. -/
def kv (key value : String) : String :=
  key ++ ":" ++ "\x27" ++ escapeSingleQuotes value ++ "\x27"

def emptyFilters : SearchFilters := ⟨none, none, none, false, none⟩

/-- Embedding of `ShopifyService.buildShopifyQuery`: pushes tokens in source
order (free text, vendor, product_type, price bounds, availability) and joins
them with single spaces. -/
def buildShopifyQuery (params : ProductSearchParams) : String :=
  let queryPart : List String :=
    match params.query with
    | none => []
    | some q => if q = "" then [] else if q.trim = "" then [] else [escapeDefault q.trim]
  let f := params.filters.getD emptyFilters
  let vendorPart : List String :=
    match f.vendor with
    | none => []
    | some v => if v = "" then [] else [kv "vendor" v]
  let categoryPart : List String :=
    match f.category with
    | none => []
    | some c => if c = "" then [] else [kv "product_type" c]
  let minPart : List String :=
    match f.price_min with
    | none => []
    | some n => ["price:>=" ++ toString n]
  let maxPart : List String :=
    match f.price_max with
    | none => []
    | some n => ["price:<=" ++ toString n]
  let availPart : List String := if f.available_only then ["inventory_total:>0"] else []
  String.intercalate " " (queryPart ++ vendorPart ++ categoryPart ++ minPart ++ maxPart ++ availPart)

/-- Modelled from the spec: the token list of §4.2 — free text with double
quotes escaped, then each active filter in fixed declaration order (vendor,
`product_type`, price lower bound, price upper bound, the fixed
inventory-presence token) — to be joined with single spaces. -/
def specQueryTokens (params : ProductSearchParams) : List String :=
  let f := params.filters.getD emptyFilters
  ([ (match params.query with
      | none => none
      | some q => if q = "" then none else if q.trim = "" then none else some (escapeDefault q.trim)),
     (match f.vendor with
      | none => none
      | some v => if v = "" then none else some (kv "vendor" v)),
     (match f.category with
      | none => none
      | some c => if c = "" then none else some (kv "product_type" c)),
     (f.price_min.map (fun n => "price:>=" ++ toString n)),
     (f.price_max.map (fun n => "price:<=" ++ toString n)),
     (if f.available_only then some "inventory_total:>0" else none) ] : List (Option String)).filterMap id

/-- Modelled from the spec: the built query is the spec token list joined by
single spaces. -/
def specBuiltQuery (params : ProductSearchParams) : String :=
  String.intercalate " " (specQueryTokens params)

/-! Product count (`countProducts`) -/

structure ProductsCountInfo where
  count : Nat
  precision : String
deriving Repr, DecidableEq

structure ProductsCountData where
  productsCount : ProductsCountInfo
deriving Repr, DecidableEq

/-- Embedding of `ShopifyService.countProducts`: a thrown transport error is
caught and becomes 0, and a reply without data also becomes 0. -/
def countProducts (resp : ReqResult ProductsCountData) : Nat :=
  match resp with
  | .thrown _ => 0
  | .reply data _ =>
    match data with
    | some d => d.productsCount.count
    | none => 0

/-! Search (`search` and its forward-skip pager) -/

structure SearchPageInfo where
  hasNextPage : Bool
  hasPreviousPage : Bool
  endCursor : Option String
deriving Repr, DecidableEq

structure SearchEdge where
  cursor : String
  node : GQLProductNode
deriving Repr, DecidableEq

structure ProductsConnection where
  edges : List SearchEdge
  pageInfo : SearchPageInfo
deriving Repr, DecidableEq

structure ProductsData where
  products : ProductsConnection
deriving Repr, DecidableEq

structure PageMeta where
  total : Nat
  page : Nat
  limit : Nat
  hasPrev : Bool
  hasNext : Bool
deriving Repr, DecidableEq

structure ProductPage where
  meta : PageMeta
  items : List UnifiedProduct
deriving Repr

/-- The empty out-of-range result built inside the skip loop of `search`. -/
def emptyResult (total page limit : Nat) : ProductPage :=
  { meta := { total := total, page := page, limit := limit,
              hasPrev := decide (page > 1), hasNext := false },
    items := [] }

/-- True when a skip step must short-circuit: the reply had no data, or the
backend reported `hasNextPage = false`. -/
def hopShortCircuits (r : ReqResult ProductsData) : Bool :=
  match r with
  | .thrown _ => false
  | .reply data _ =>
    match data with
    | none => true
    | some d => !d.products.pageInfo.hasNextPage

/-- The cursor walk of `search`: first the `page-1` skip hops (each keeping
only `pageInfo`), then the fetch of the requested page.  `fetchPage` is the
response oracle for the k-th listing request (the query string, sort key and
page size are fixed across the walk and absorbed into the oracle). -/
def searchGo (parseFloat : String → Float)
    (fetchPage : Nat → Option String → ReqResult ProductsData)
    (total page limit : Nat) : Nat → Nat → Option String → Except String ProductPage
  | 0, k, after =>
    match fetchPage k after with
    | .thrown msg => .error msg
    | .reply data _ =>
      let edges := match data with | some d => d.products.edges | none => []
      let finalNext := match data with | some d => d.products.pageInfo.hasNextPage | none => false
      .ok { meta := { total := total, page := page, limit := limit,
                      hasPrev := decide (page > 1), hasNext := finalNext },
            items := edges.map (fun e => mapUnifiedProduct parseFloat e.node) }
  | hops + 1, k, _after =>
    match fetchPage k _after with
    | .thrown msg => .error msg
    | .reply data _ =>
      match data with
      | none => .ok (emptyResult total page limit)
      | some d =>
        if d.products.pageInfo.hasNextPage then
          searchGo parseFloat fetchPage total page limit hops (k + 1) d.products.pageInfo.endCursor
        else .ok (emptyResult total page limit)

/-- Embedding of `ShopifyService.search`. -/
def search (parseFloat : String → Float)
    (fetchPage : Nat → Option String → ReqResult ProductsData)
    (countResp : ReqResult ProductsCountData)
    (params : ProductSearchParams) : Except String ProductPage :=
  let total := countProducts countResp
  let page := max 1 (jsOrNat params.page 1)
  let limit := max 1 (min (jsOrNat params.limit 20) 250)
  searchGo parseFloat fetchPage total page limit (page - 1) 0 none

/-! Variant-overflow pager (`fetchAdditionalVariants`) and `findProduct` -/

structure VariantsHost where
  variants : VariantsConnection
deriving Repr, DecidableEq

structure VariantsData where
  product : Option VariantsHost
deriving Repr, DecidableEq

/-- The `while (hasNext)` loop of `fetchAdditionalVariants`, with fuel: `none`
means the source loop has not returned within `fuel` iterations (the source
has no bound at all, so a result of `none` for every fuel models divergence).
`fetch` is the response oracle for the k-th variants-page request. -/
def fetchAdditionalVariantsGo (fetch : Nat → Option String → ReqResult VariantsData) :
    Nat → Nat → Option String → List VariantEdge → Option (Except String (List VariantEdge))
  | 0, _, _, _ => none
  | fuel + 1, k, next, acc =>
    match fetch k next with
    | .thrown msg => some (.error msg)
    | .reply moreData _ =>
      match moreData.bind (·.product) with
      | none => some (.ok acc)
      | some host =>
        let chunk := host.variants
        let acc' := acc ++ chunk.edges
        if chunk.pageInfo.hasNextPage then
          fetchAdditionalVariantsGo fetch fuel (k + 1) (jsOrCursor chunk.pageInfo.endCursor) acc'
        else some (.ok acc')

/-- Embedding of `ShopifyService.fetchAdditionalVariants`. -/
def fetchAdditionalVariants (fetch : Nat → Option String → ReqResult VariantsData)
    (fuel : Nat) (after : Option String) : Option (Except String (List VariantEdge)) :=
  fetchAdditionalVariantsGo fetch fuel 0 (jsOrCursor after) []

structure DetailData where
  product : Option GQLProductNode
deriving Repr, DecidableEq

/-- Embedding of `ShopifyService.findProduct`: validates the identifier, reads
the detail response, fails when the backend returned a null product, pages
overflow variants, merges and normalizes. -/
def findProduct (parseFloat : String → Float) (detailResp : ReqResult DetailData)
    (variantsFetch : Nat → Option String → ReqResult VariantsData) (fuel : Nat)
    (id : String) : Except String UnifiedProduct :=
  match ensureProductGid id with
  | .error e => .error e
  | .ok _shopifyGid =>
    match detailResp with
    | .thrown msg => .error msg
    | .reply data _ =>
      match data.bind (·.product) with
      | none => .error ("Shopify product not found: " ++ id)
      | some product =>
        if product.variants.pageInfo.hasNextPage then
          match fetchAdditionalVariants variantsFetch fuel product.variants.pageInfo.endCursor with
          | none => .error "model: variant pagination did not terminate"
          | some (.error msg) => .error msg
          | some (.ok additional) =>
            let merged := { product with
              variants := { product.variants with
                edges := product.variants.edges ++ additional } }
            .ok (mapUnifiedProduct parseFloat merged)
        else .ok (mapUnifiedProduct parseFloat product)

/-! Health check (`checkHealth`) -/

structure ShopDefinition where
  id : String
  name : String
  email : String
deriving Repr, DecidableEq

inductive HealthKind where
  | healthy
  | warning
  | error
deriving Repr, DecidableEq

structure HealthStatus where
  status : HealthKind
  message : Option String
deriving Repr, DecidableEq

/-- Embedding of `ShopifyService.checkHealth` (its `lastCheck : Date` wall-clock
field is outside the embedding).  The function is total: every transport
outcome, including a thrown error, maps to a status value — nothing is
rethrown. -/
def checkHealth (resp : ReqResult ShopDefinition) : HealthStatus :=
  match resp with
  | .thrown msg => { status := .error, message := some msg }
  | .reply data _ =>
    match data with
    | some _ => { status := .healthy, message := none }
    | none => { status := .warning, message := some "No data returned from Shopify API" }

/-! Creation request validation (`CreateProductSchema` in `store.dto.ts`) -/

structure OptionValueName where
  name : String
deriving Repr, DecidableEq

structure ProductOptionGroup where
  name : String
  values : List OptionValueName
deriving Repr, DecidableEq

structure ProductOptionValue where
  optionName : String
  name : String
deriving Repr, DecidableEq

structure InventoryQuantity where
  locationId : String
  name : String
  quantity : Nat
deriving Repr, DecidableEq

structure VariantInventory where
  tracked : Bool
  cost : Option Int
  requiresShipping : Bool
deriving Repr, DecidableEq

structure ProductVariantInput where
  optionValues : List ProductOptionValue
  price : Int
  compareAtPrice : Option Int
  inventoryItem : Option VariantInventory
  inventoryQuantities : Option (List InventoryQuantity)
  sku : Option String
deriving Repr, DecidableEq

structure CreateProduct where
  title : String
  descriptionHtml : Option String
  productType : Option String
  vendor : Option String
  productOptions : List ProductOptionGroup
  variants : List ProductVariantInput
deriving Repr, DecidableEq

/-- Refinement attached to `ProductVariantSchema`: `compareAtPrice`, when
present, must exceed `price`. -/
def variantRefine (v : ProductVariantInput) : Bool :=
  match v.compareAtPrice with
  | none => true
  | some c => decide (c > v.price)

/-- Option-map lookup as built by `Object.fromEntries`: when two declared
groups share a name, the later entry wins. -/
def optionMapFind (opts : List ProductOptionGroup) (key : String) :
    Option (List OptionValueName) :=
  (opts.reverse.find? (fun o => o.name == key)).map (·.values)

/-- The object-level `.refine` of `CreateProductSchema`: variants require at
least one declared option group, and every option-value reference must resolve
to a declared group and to one of its declared value names. -/
def createRefine (data : CreateProduct) : Bool :=
  if data.variants.length > 0 && data.productOptions.length == 0 then false
  else
    data.variants.all (fun v =>
      v.optionValues.all (fun ov =>
        match optionMapFind data.productOptions ov.optionName with
        | none => false
        | some vals => vals.any (fun w => w.name == ov.name)))

/-- Full `CreateProductSchema` validation over already well-typed input: the
structural bounds plus both refinements. -/
def validateCreateProduct (data : CreateProduct) : Bool :=
  decide (data.productOptions.length ≤ 3) && decide (data.variants.length ≤ 100) &&
    data.variants.all variantRefine && createRefine data

/-! Creation orchestrator (`create`, `waitForProductOperation`) -/

structure UserError where
  field : List String
  message : String
  code : String
deriving Repr, DecidableEq

inductive OpStatus where
  | created
  | active
  | complete
deriving Repr, DecidableEq

def opStatusText : OpStatus → String
  | .created => "CREATED"
  | .active => "ACTIVE"
  | .complete => "COMPLETE"

structure SetOperationHandle where
  id : String
  status : OpStatus
  product : Option String
deriving Repr, DecidableEq

structure ProductSetPayload where
  product : Option String
  productSetOperation : Option SetOperationHandle
  userErrors : List UserError
deriving Repr, DecidableEq

structure PollOperation where
  id : String
  status : OpStatus
  product : Option String
  userErrors : List UserError
deriving Repr, DecidableEq

structure PollData where
  productOperation : Option PollOperation
deriving Repr, DecidableEq

/-- Aggregates backend user errors into one message, as
`userErrors.map(e => e.message).join(', ')`. -/
def joinUserErrors (errs : List UserError) : String :=
  String.intercalate ", " (errs.map (·.message))

/-- The literal message of the fall-through `throw` at the end of `create`. -/
def createFallthroughMsg : String := "Failed to create product: No debió llegas aqui"

/-- Result of one polling iteration of `waitForProductOperation`. -/
inductive PollStep where
  | failed (msg : String)
  | finished (pid : String)
  | again (status : OpStatus)
deriving Repr, DecidableEq

/-- One iteration body of the polling loop: transport and protocol failures,
operation user errors, terminal completion, or a non-terminal status. -/
def pollOnce (r : ReqResult PollData) : PollStep :=
  match r with
  | .thrown msg => .failed msg
  | .reply data errors =>
    match errors with
    | some m => .failed ("Polling error: " ++ m)
    | none =>
      match data.bind (·.productOperation) with
      | none => .failed "Polling error: no operation data"
      | some op =>
        if op.userErrors.length > 0 then
          .failed ("ProductSet operation failed: " ++ joinUserErrors op.userErrors)
        else if op.status = .complete then
          match op.product with
          | some pid => .finished pid
          | none => .failed "Operation COMPLETE but product id is missing"
        else .again op.status

/-- The polling loop with the timeout budget as fuel: `fuel` counts how many
further non-terminal polls fit inside the 120 s deadline; when it runs out the
timeout error carries the last observed status. -/
def waitLoop (poll : Nat → ReqResult PollData) : Nat → Nat → Except String String
  | 0, i =>
    match pollOnce (poll i) with
    | .failed m => .error m
    | .finished pid => .ok pid
    | .again st =>
      .error ("Timed out waiting for productSet operation (last status: " ++ opStatusText st ++ ")")
  | fuel + 1, i =>
    match pollOnce (poll i) with
    | .failed m => .error m
    | .finished pid => .ok pid
    | .again _ => waitLoop poll fuel (i + 1)

/-- Embedding of `ShopifyService.waitForProductOperation`. -/
def waitForProductOperation (poll : Nat → ReqResult PollData) (timeoutPolls : Nat) :
    Except String String :=
  waitLoop poll timeoutPolls 0

/-- Embedding of `ShopifyService.create`: the synchronous hint is computed from
the variant count, and the two success branches are guarded by the conjunction
of that hint with the presence of the corresponding result shape. -/
def create (dto : CreateProduct) (resp : ReqResult ProductSetPayload)
    (poll : Nat → ReqResult PollData) (timeoutPolls : Nat) : Except String String :=
  let synchronous := dto.variants.length ≤ 10
  match resp with
  | .thrown msg => .error msg
  | .reply data errors =>
    match errors with
    | some m => .error ("Failed to create product: " ++ m)
    | none =>
      match data with
      | none => .error "Failed to create product: No response data"
      | some payload =>
        if payload.userErrors.length > 0 then
          .error ("Failed to create product: " ++ joinUserErrors payload.userErrors)
        else if synchronous then
          match payload.product with
          | some pid => .ok (simplifyGid pid)
          | none => .error createFallthroughMsg
        else
          match payload.productSetOperation with
          | some op =>
            if op.status = .complete then
              match op.product with
              | some pid => .ok pid
              | none => .error "TypeError: Cannot read properties of undefined"
            else waitForProductOperation poll timeoutPolls
          | none => .error createFallthroughMsg

/-! Concrete sample inputs used by counterexamples and witnesses -/

def trivialVariant : ProductVariantInput := ⟨[⟨"Size", "S"⟩], 10, none, none, none, none⟩

def dtoSyncHint : CreateProduct :=
  { title := "Tee", descriptionHtml := none, productType := none, vendor := none,
    productOptions := [⟨"Size", [⟨"S"⟩]⟩], variants := [trivialVariant] }

def dtoAsyncHint : CreateProduct :=
  { title := "Tee", descriptionHtml := none, productType := none, vendor := none,
    productOptions := [⟨"Size", [⟨"S"⟩]⟩], variants := List.replicate 11 trivialVariant }

def asyncOnlyPayload : ProductSetPayload :=
  ⟨none, some ⟨"gid://shopify/ProductSetOperation/7", .active, none⟩, []⟩

def pollCompletes : Nat → ReqResult PollData :=
  fun _ => .reply
    (some ⟨some ⟨"gid://shopify/ProductSetOperation/7", .complete,
      some "gid://shopify/Product/42", []⟩⟩) none

def dupVariantsExample : CreateProduct :=
  { title := "T", descriptionHtml := none, productType := none, vendor := none,
    productOptions := [⟨"Size", [⟨"S"⟩]⟩],
    variants := [⟨[⟨"Size", "S"⟩], 10, none, none, none, none⟩,
                 ⟨[⟨"Size", "S"⟩], 12, none, none, none, none⟩] }

def unresolvedRefExample : CreateProduct :=
  { title := "T", descriptionHtml := none, productType := none, vendor := none,
    productOptions := [⟨"Size", [⟨"S"⟩]⟩],
    variants := [⟨[⟨"Color", "Red"⟩], 10, none, none, none, none⟩] }

def stalledVariantsFetch : Nat → Option String → ReqResult VariantsData :=
  fun _ _ => .reply (some ⟨some ⟨⟨[], ⟨true, some "c0"⟩⟩⟩⟩) none

def emptyHopFetch : Nat → Option String → ReqResult ProductsData :=
  fun _ _ => .reply (some ⟨⟨[], ⟨false, false, none⟩⟩⟩) none

def pageThreeParams : ProductSearchParams :=
  { query := none, page := 3, limit := 10, sort := [], filters := none }

def pageOneParams : ProductSearchParams :=
  { query := none, page := 1, limit := 10, sort := [], filters := none }

def sampleVariantNode : GQLProductVariantNode :=
  { id := "gid://shopify/ProductVariant/9001", title := "Default",
    availableForSale := true, inventoryQuantity := some 3, price := "19.90",
    sku := some "SKU-1", selectedOptions := [⟨"Size", "S"⟩] }

def sampleProductNode : GQLProductNode :=
  { id := "gid://shopify/Product/77", title := "Sample", description := none,
    handle := none, productType := none, vendor := none, tags := [],
    updatedAt := "2024-01-01T00:00:00Z",
    priceRangeV2 := ⟨⟨"19.90", "USD"⟩, ⟨"19.90", "USD"⟩⟩,
    featuredMedia := none, media := [],
    variants := ⟨[⟨sampleVariantNode⟩], ⟨false, none⟩⟩ }

def singleProductFetch : Nat → Option String → ReqResult ProductsData :=
  fun _ _ => .reply (some ⟨⟨[⟨"cur1", sampleProductNode⟩], ⟨false, false, none⟩⟩⟩) none

def sampleSearchParams : ProductSearchParams :=
  { query := some "  blue shirt ", page := 1, limit := 10, sort := [],
    filters := some ⟨some "Apparel", some 5, some 50, true, some "Acme"⟩ }

/-! Helper lemmas -/

theorem isPrefixList_append (l s : List Char) : isPrefixList l (l ++ s) = true := by
  induction l with
  | nil => rfl
  | cons c cs ih => simp [isPrefixList, ih]

theorem replaceFirstList_exact (pat rep s : List Char) (h : pat ≠ []) :
    replaceFirstList pat rep (pat ++ s) = rep ++ s := by
  match pat with
  | [] => exact absurd rfl h
  | c :: cs =>
    show replaceFirstList (c :: cs) rep (c :: (cs ++ s)) = rep ++ s
    rw [replaceFirstList]
    have hpre : isPrefixList (c :: cs) (c :: (cs ++ s)) = true := isPrefixList_append (c :: cs) s
    rw [if_pos hpre]
    simp

theorem simplifyProductGid_root_append (v : String) :
    simplifyProductGid (productGidRoot ++ v) = v := by
  unfold simplifyProductGid
  rw [String.data_append, replaceFirstList_exact _ _ _ (by decide)]
  cases v with
  | mk l => rfl

theorem numeric_not_gid (v : String) (h : isNumeric v = true) :
    jsStartsWith v productGidRoot = false := by
  obtain ⟨l⟩ := v
  cases l with
  | nil => exact absurd h (by decide)
  | cons c cs =>
    have hc : c.isDigit = true := by
      unfold isNumeric at h
      simp [List.all_cons] at h
      exact h.1
    show isPrefixList productGidRoot.data (c :: cs) = false
    have hroot : productGidRoot.data = 'g' :: "id://shopify/Product/".data := rfl
    rw [hroot]
    have hg : (('g' : Char) == c) = false := by
      cases hEq : ('g' : Char) == c
      · rfl
      · exfalso
        have : c = 'g' := (beq_iff_eq.mp hEq).symm
        subst this
        exact absurd hc (by decide)
    simp [isPrefixList, hg]

theorem startsWith_root_append (v : String) :
    jsStartsWith (productGidRoot ++ v) productGidRoot = true := by
  unfold jsStartsWith
  rw [String.data_append]
  exact isPrefixList_append _ _

/-! Claim C3 -/

/-- C3 counterexample: for the syntactically valid global product id
`gid://shopify/Product/42`, the round trip `ToLocal(ToGlobal(v))` yields the
bare suffix `42`, which differs from `str(v)`, so the round-trip law as claimed
fails on already-global inputs. -/
theorem codec_roundtrip_fails_on_global_id :
    ensureProductGid "gid://shopify/Product/42" = .ok "gid://shopify/Product/42" ∧
    simplifyProductGid "gid://shopify/Product/42" = "42" ∧
    simplifyProductGid "gid://shopify/Product/42" ≠ "gid://shopify/Product/42" := by
  refine ⟨rfl, by decide, by decide⟩

/-- C3 (amended): for every bare numeric identifier `v` the codec round-trips
to `v` itself; for the corresponding valid global id `productGidRoot ++ v`,
`ensureProductGid` passes it through unchanged and `simplifyProductGid` maps it
to the local suffix `v` (not back to the full global form). -/
theorem codec_roundtrip_numeric_and_suffix (v : String) (hv : isNumeric v = true) :
    (∃ g, ensureProductGid v = .ok g ∧ simplifyProductGid g = v) ∧
    (ensureProductGid (productGidRoot ++ v) = .ok (productGidRoot ++ v) ∧
     simplifyProductGid (productGidRoot ++ v) = v) := by
  refine ⟨⟨productGidRoot ++ v, ?_, simplifyProductGid_root_append v⟩,
          ?_, simplifyProductGid_root_append v⟩
  · unfold ensureProductGid
    rw [numeric_not_gid v hv]
    simp [hv]
  · unfold ensureProductGid
    rw [startsWith_root_append v]
    simp

/-- C3 witness: the amended round-trip law evaluated at the concrete numeric
identifier `42`. -/
theorem codec_roundtrip_numeric_and_suffix_witness :
    (∃ g, ensureProductGid "42" = .ok g ∧ simplifyProductGid g = "42") ∧
    (ensureProductGid (productGidRoot ++ "42") = .ok (productGidRoot ++ "42") ∧
     simplifyProductGid (productGidRoot ++ "42") = "42") :=
  codec_roundtrip_numeric_and_suffix "42" (by decide)

/-! Claim C4 -/

/-- C4 (code bug): against a backend whose variants-page responses always come
back with `hasNextPage = true` and the same end cursor `c0`, the overflow walk
of `fetchAdditionalVariants` never produces any outcome, for every fuel bound:
the source loop has no stall detection and repeats requests indefinitely
instead of failing with a `PaginationStalled` error. -/
theorem fetch_variants_stalled_cursor_never_returns :
    (∀ (fuel k : Nat) (next : Option String) (acc : List VariantEdge),
        fetchAdditionalVariantsGo stalledVariantsFetch fuel k next acc = none) ∧
    (∀ (fuel : Nat) (after : Option String),
        fetchAdditionalVariants stalledVariantsFetch fuel after = none) := by
  have hgo : ∀ (fuel k : Nat) (next : Option String) (acc : List VariantEdge),
      fetchAdditionalVariantsGo stalledVariantsFetch fuel k next acc = none := by
    intro fuel
    induction fuel with
    | zero => intro k next acc; rfl
    | succ n ih =>
      intro k next acc
      show fetchAdditionalVariantsGo stalledVariantsFetch (n + 1) k next acc = none
      rw [fetchAdditionalVariantsGo]
      simp only [stalledVariantsFetch, Option.bind]
      exact ih (k + 1) (jsOrCursor (some "c0")) (acc ++ [])
  exact ⟨hgo, fun fuel after => hgo fuel 0 (jsOrCursor after) []⟩

/-! Claim C5 -/

/-- C5 counterexample: the spec's own duplicate-combination example — two
variants that both select `Size=S` — passes `CreateProductSchema` validation,
so the claim that validation rejects every request with two identical
option-value combinations is false. -/
theorem duplicate_variant_combo_accepted :
    validateCreateProduct dupVariantsExample = true ∧
    dupVariantsExample.variants.map (·.optionValues) =
      [[⟨"Size", "S"⟩], [⟨"Size", "S"⟩]] := by
  refine ⟨by decide, by decide⟩

/-- C5 (amended): `CreateProductSchema` validation rejects every request
containing a variant whose option-value reference does not resolve against a
declared option group, but it does not check duplicate option-value
combinations — a request with two variants sharing an identical combination is
accepted. -/
theorem validation_rejects_unresolved_accepts_duplicates :
    (∀ (d : CreateProduct) (v : ProductVariantInput) (ov : ProductOptionValue),
        v ∈ d.variants → ov ∈ v.optionValues →
        optionMapFind d.productOptions ov.optionName = none →
        validateCreateProduct d = false) ∧
    validateCreateProduct dupVariantsExample = true := by
  constructor
  · intro d v ov hv hov hnone
    have href : createRefine d = false := by
      unfold createRefine
      split
      · rfl
      · cases hall : d.variants.all (fun v =>
            v.optionValues.all (fun ov =>
              match optionMapFind d.productOptions ov.optionName with
              | none => false
              | some vals => vals.any (fun w => w.name == ov.name))) with
        | false => rfl
        | true =>
          exfalso
          have h1 := List.all_eq_true.mp hall v hv
          have h2 := List.all_eq_true.mp h1 ov hov
          rw [hnone] at h2
          exact Bool.false_ne_true h2
    unfold validateCreateProduct
    rw [href]
    simp
  · decide

/-- C5 witness: the undeclared-reference rejection evaluated at a concrete
request whose single variant references the undeclared option `Color`. -/
theorem validation_rejects_unresolved_witness :
    validateCreateProduct unresolvedRefExample = false :=
  validation_rejects_unresolved_accepts_duplicates.1 unresolvedRefExample
    ⟨[⟨"Color", "Red"⟩], 10, none, none, none, none⟩ ⟨"Color", "Red"⟩
    (by decide) (by decide) (by decide)

/-! Claim C1 -/

/-- C1 counterexample: a submission whose size hint is synchronous (one
variant) but whose response carries only an operation handle — exactly the
"backend may still respond asynchronously regardless of the hint" situation —
does not enter the polling path as the claim states; `create` throws the
fall-through error even though polling that same operation would have
succeeded. -/
theorem create_sync_hint_async_shape_fatal :
    create dtoSyncHint (.reply (some asyncOnlyPayload) none) pollCompletes 5 =
      .error createFallthroughMsg ∧
    waitForProductOperation pollCompletes 5 = .ok "gid://shopify/Product/42" := by
  exact ⟨rfl, rfl⟩

/-- C1 (amended): on a clean mutation reply (no transport error, data present,
no user errors), `create` takes the immediate-resource branch only when the
size-based synchronous hint holds AND a product is present, and the
operation branch only when the hint is asynchronous AND an operation handle is
present; every other combination — a response shape disagreeing with the hint
as well as neither shape being present — ends in the fatal fall-through
error. -/
theorem create_branch_requires_hint_and_shape (dto : CreateProduct)
    (payload : ProductSetPayload) (poll : Nat → ReqResult PollData) (t : Nat)
    (hclean : payload.userErrors = []) :
    (dto.variants.length ≤ 10 →
      ((∀ pid, payload.product = some pid →
          create dto (.reply (some payload) none) poll t = .ok (simplifyGid pid)) ∧
       (payload.product = none →
          create dto (.reply (some payload) none) poll t = .error createFallthroughMsg))) ∧
    (¬ dto.variants.length ≤ 10 →
      ((payload.productSetOperation = none →
          create dto (.reply (some payload) none) poll t = .error createFallthroughMsg) ∧
       (∀ op, payload.productSetOperation = some op → op.status ≠ .complete →
          create dto (.reply (some payload) none) poll t = waitForProductOperation poll t) ∧
       (∀ op pid, payload.productSetOperation = some op → op.status = .complete →
          op.product = some pid →
          create dto (.reply (some payload) none) poll t = .ok pid))) := by
  constructor
  · intro hsync
    constructor
    · intro pid hpid
      simp [create, hclean, hsync, hpid]
    · intro hnone
      simp [create, hclean, hsync, hnone]
  · intro hasync
    refine ⟨?_, ?_, ?_⟩
    · intro hnone
      simp [create, hclean, hasync, hnone]
    · intro op hop hst
      simp [create, hclean, hasync, hop, hst]
    · intro op pid hop hst hpid
      simp [create, hclean, hasync, hop, hst, hpid]

/-- C1 witness: the synchronous-hint, product-present branch of the amended
claim evaluated at a concrete request and response. -/
theorem create_branch_requires_hint_and_shape_witness :
    create dtoSyncHint (.reply (some ⟨some "gid://shopify/Product/42", none, []⟩) none)
        pollCompletes 5 = .ok (simplifyGid "gid://shopify/Product/42") :=
  ((create_branch_requires_hint_and_shape dtoSyncHint
      ⟨some "gid://shopify/Product/42", none, []⟩ pollCompletes 5 rfl).1
    (by decide)).1 "gid://shopify/Product/42" rfl

/-! Claim C2 -/

/-- C2 (code bug): an asynchronous creation (11 variants) whose operation comes
back already terminal-complete returns the raw global id
`gid://shopify/Product/42` — not the local form `42` that `Create -> LocalId`
promises and that the synchronous branch produces via `simplifyGid`. -/
theorem create_async_complete_returns_global_gid :
    create dtoAsyncHint
        (.reply (some ⟨none, some ⟨"gid://shopify/ProductSetOperation/7", .complete,
            some "gid://shopify/Product/42"⟩, []⟩) none)
        pollCompletes 5 = .ok "gid://shopify/Product/42" ∧
    create dtoAsyncHint (.reply (some asyncOnlyPayload) none) pollCompletes 5 =
      .ok "gid://shopify/Product/42" ∧
    simplifyGid "gid://shopify/Product/42" = "42" ∧
    ("gid://shopify/Product/42" : String) ≠ "42" := by
  refine ⟨rfl, rfl, by decide, by decide⟩

/-! Claim C6 -/

theorem searchGo_short_circuit (pf : String → Float)
    (fetch : Nat → Option String → ReqResult ProductsData) (total page limit : Nat) :
    ∀ (hops k : Nat) (after : Option String),
      (∀ i a, isThrown (fetch i a) = false) →
      (∃ j, j < hops ∧ ∀ a, hopShortCircuits (fetch (k + j) a) = true) →
      searchGo pf fetch total page limit hops k after = .ok (emptyResult total page limit) := by
  intro hops
  induction hops with
  | zero =>
    intro k after _ hfail
    obtain ⟨j, hj, _⟩ := hfail
    exact absurd hj (Nat.not_lt_zero j)
  | succ n ih =>
    intro k after hnt hfail
    obtain ⟨j, hj, hsc⟩ := hfail
    cases hf : fetch k after with
    | thrown m =>
      exfalso
      have := hnt k after
      rw [hf] at this
      exact Bool.noConfusion this
    | reply data errs =>
      cases data with
      | none => simp [searchGo, hf]
      | some d =>
        cases hNext : d.products.pageInfo.hasNextPage with
        | false => simp [searchGo, hf, hNext, emptyResult]
        | true =>
          have hj0 : j ≠ 0 := by
            intro h0
            subst h0
            have := hsc after
            rw [Nat.add_zero, hf] at this
            simp [hopShortCircuits, hNext] at this
          obtain ⟨j', rfl⟩ : ∃ j', j = j' + 1 := ⟨j - 1, by omega⟩
          have hrec := ih (k + 1) d.products.pageInfo.endCursor hnt
            ⟨j', by omega, by
              intro a
              have := hsc a
              rwa [show k + (j' + 1) = (k + 1) + j' by omega] at this⟩
          simp [searchGo, hf, hNext]
          exact hrec

/-- C6: whenever some forward-skip step of the pager observes a reply without
`hasNextPage` (the requested page lies beyond the available data), `search`
returns — never errors — the empty page: `items = []`, `hasNext = false`,
`hasPrev = (page > 1)`, with the separately-computed total and the clamped
page and limit in `meta`. -/
theorem search_out_of_range_returns_empty_page (pf : String → Float)
    (fetch : Nat → Option String → ReqResult ProductsData)
    (countResp : ReqResult ProductsCountData) (params : ProductSearchParams)
    (hnt : ∀ i a, isThrown (fetch i a) = false)
    (hfail : ∃ j, j < max 1 (jsOrNat params.page 1) - 1 ∧
        ∀ a, hopShortCircuits (fetch j a) = true) :
    search pf fetch countResp params =
      .ok { meta := { total := countProducts countResp,
                      page := max 1 (jsOrNat params.page 1),
                      limit := max 1 (min (jsOrNat params.limit 20) 250),
                      hasPrev := decide (max 1 (jsOrNat params.page 1) > 1),
                      hasNext := false },
            items := [] } := by
  unfold search
  have h := searchGo_short_circuit pf fetch (countProducts countResp)
    (max 1 (jsOrNat params.page 1)) (max 1 (min (jsOrNat params.limit 20) 250))
    (max 1 (jsOrNat params.page 1) - 1) 0 none hnt
    (by
      obtain ⟨j, hj, hsc⟩ := hfail
      exact ⟨j, hj, by intro a; simpa using hsc a⟩)
  simpa [emptyResult] using h

/-- C6 witness: requesting page 3 of a single-page catalog (every hop reports
`hasNextPage = false`) yields the empty page with `hasPrev = true`,
`hasNext = false` and no error. -/
theorem search_out_of_range_witness :
    search (fun _ => (0 : Float)) emptyHopFetch (.thrown "down") pageThreeParams =
      .ok { meta := { total := 0, page := 3, limit := 10,
                      hasPrev := true, hasNext := false },
            items := [] } :=
  search_out_of_range_returns_empty_page (fun _ => (0 : Float)) emptyHopFetch
    (.thrown "down") pageThreeParams (fun _ _ => rfl) ⟨0, by decide, fun _ => rfl⟩

/-! Claim C8 -/

/-- C8: `checkHealth` is a total mapping from every backend outcome to a
status value (no exception escapes): a thrown transport error becomes
status `error` carrying that error's message, a reply with data becomes
`healthy`, and a reply without data becomes `warning`. -/
theorem check_health_total_status_mapping :
    (∀ msg, checkHealth (.thrown msg) = { status := .error, message := some msg }) ∧
    (∀ (shop : ShopDefinition) (errs : Option String),
        checkHealth (.reply (some shop) errs) = { status := .healthy, message := none }) ∧
    (∀ errs : Option String,
        checkHealth (.reply none errs) =
          { status := .warning, message := some "No data returned from Shopify API" }) :=
  ⟨fun _ => rfl, fun _ _ => rfl, fun _ => rfl⟩

/-! Claim C9 -/

/-- C9: `countProducts` swallows every failure of the count query — a thrown
transport error and a reply without data both yield 0 — and consequently
`search` can succeed with `meta.total = 0` while `items` is non-empty, as the
concrete scenario (count query down, listing query healthy) shows. -/
theorem count_failure_yields_zero_total_with_items :
    (∀ msg, countProducts (.thrown msg) = 0) ∧
    (∀ errs, countProducts (.reply none errs) = 0) ∧
    (∃ pp, search (fun _ => (0 : Float)) singleProductFetch (.thrown "ECONNRESET") pageOneParams
        = .ok pp ∧ pp.meta.total = 0 ∧ pp.items.length = 1) := by
  exact ⟨fun _ => rfl, fun _ => rfl, ⟨_, rfl, rfl, rfl⟩⟩

/-! Claim C10 -/

/-- C10: for every well-formed identifier (one `ensureProductGid` accepts),
a detail reply whose `product` is null — whether the data object is present
with a null product or missing entirely — makes `findProduct` fail with the
not-found error rather than return a value. -/
theorem find_product_null_is_not_found (pf : String → Float)
    (variantsFetch : Nat → Option String → ReqResult VariantsData) (fuel : Nat)
    (errs : Option String) (id g : String)
    (hid : ensureProductGid id = .ok g) :
    findProduct pf (.reply (some ⟨none⟩) errs) variantsFetch fuel id =
      .error ("Shopify product not found: " ++ id) ∧
    findProduct pf (.reply none errs) variantsFetch fuel id =
      .error ("Shopify product not found: " ++ id) := by
  constructor <;> · unfold findProduct; rw [hid]; rfl

/-- C10 witness: looking up the well-formed identifier `42` against a backend
that returns a null product yields the not-found error. -/
theorem find_product_null_is_not_found_witness :
    findProduct (fun _ => (0 : Float)) (.reply (some ⟨none⟩) none)
        (fun _ _ => .reply none none) 0 "42" =
      .error "Shopify product not found: 42" :=
  (find_product_null_is_not_found (fun _ => (0 : Float)) (fun _ _ => .reply none none) 0
    none "42" "gid://shopify/Product/42" rfl).1

/-! Claim C7 -/

set_option maxHeartbeats 2000000 in
/-- C7: the query builder is deterministic — equal `ProductSearchParams`
values produce equal query strings — and its output is exactly the
spec-ordered token list (free text, vendor, product_type, price lower bound,
price upper bound, inventory-presence token) joined by single spaces. -/
theorem build_query_deterministic_ordered (p q : ProductSearchParams) :
    buildShopifyQuery p = specBuiltQuery p ∧
    (p = q → buildShopifyQuery p = buildShopifyQuery q) := by
  constructor
  · rcases p with ⟨qs, pg, lim, srt, flt⟩
    rcases flt with _ | ⟨cat, pmin, pmax, av, ven⟩
    · rcases qs with _ | s <;>
        unfold buildShopifyQuery specBuiltQuery specQueryTokens <;>
        simp only [Option.getD, emptyFilters] <;>
        split_ifs <;>
        rfl
    · rcases qs with _ | s <;>
        rcases ven with _ | v <;>
        rcases cat with _ | c <;>
        rcases pmin with _ | n1 <;>
        rcases pmax with _ | n2 <;>
        cases av <;>
        unfold buildShopifyQuery specBuiltQuery specQueryTokens <;>
        simp only [Option.getD, Option.map, emptyFilters] <;>
        split_ifs <;>
        rfl
  · intro h
    rw [h]

/-- C7 witness: determinism and the spec token ordering evaluated at a
concrete request carrying free text and every filter. -/
theorem build_query_deterministic_ordered_witness :
    buildShopifyQuery sampleSearchParams = specBuiltQuery sampleSearchParams ∧
    buildShopifyQuery sampleSearchParams = buildShopifyQuery sampleSearchParams :=
  ⟨(build_query_deterministic_ordered sampleSearchParams sampleSearchParams).1,
   (build_query_deterministic_ordered sampleSearchParams sampleSearchParams).2 rfl⟩

end ShopifyGen
